import Mathlib

/-!
Verification of the 1MinuteShop backend (src/main.py, src/schemas.py).

Shallow embedding: the MongoDB collections become Lean lists of typed
records, endpoint handlers become pure functions from a database state
(plus the clock reading and the store-assigned fresh primary key) to an
`Except HTTPException` result, and the raw Mongo documents handled by the
output normalizer `to_str_id` become association lists of `Value`s.

Modelling conventions, stated once:
- Mongo `ObjectId`s are kept as their 24-character hex strings; the only
  use the source makes of `ObjectId(s)` is equality of ids and
  `ObjectId.is_valid(s)`, both of which factor through the hex string.
- Python `datetime` values produced by `datetime.now(timezone.utc)` are
  modelled as UTC instants in whole seconds since the Unix epoch
  (`Nat`); `astimezone(timezone.utc)` is the identity on such instants
  and `isoformat` is the concrete renderer `isoUTC` below.  The two
  consecutive `datetime.now` calls inside one handler are modelled as a
  single clock reading `now`.
- Python `float` payloads (`price`, `order_total`) are carried opaquely
  as integers; no specified behaviour performs float arithmetic.
- The open `Dict[str, Any]` payloads (`payment_details`,
  `shipping_address`) are carried as string-keyed maps with opaque
  string values; no specified behaviour inspects them.
-/

/-- A value stored in a Mongo document, as far as this backend's records go. -/
inductive Value where
  | vOid : String → Value
  | vStr : String → Value
  | vInt : Int → Value
  | vBool : Bool → Value
  | vDatetime : Nat → Value
  | vStrList : List String → Value
  | vDict : List (String × String) → Value
  | vNull : Value
deriving DecidableEq, Repr

/-- A raw stored document: an insertion-ordered association list, as a
Python dict (keys unique in well-formed documents). -/
abbrev Document : Type := List (String × Value)

/-- Python `d.get(k)` on a dict. -/
def dictGet (d : Document) (k : String) : Option Value :=
  (d.find? (fun p => p.1 == k)).map (fun p => p.2)

/-- Python `d.pop(k)` (the removal part). -/
def dictErase (d : Document) (k : String) : Document :=
  d.filter (fun p => p.1 != k)

/-- Python `d[k] = v`: replace in place when the key exists, else append. -/
def dictSet (d : Document) (k : String) (v : Value) : Document :=
  if d.any (fun p => p.1 == k) then
    d.map (fun p => if p.1 == k then (k, v) else p)
  else d ++ [(k, v)]

/-- Zero-padding helpers for the ISO-8601 renderer. -/
def pad2 (n : Nat) : String :=
  if n < 10 then "0" ++ toString n else toString n

def pad4 (n : Nat) : String :=
  if n < 10 then "000" ++ toString n
  else if n < 100 then "00" ++ toString n
  else if n < 1000 then "0" ++ toString n
  else toString n

/-- Civil date from days since the Unix epoch (standard era-based
conversion, specialised to non-negative day counts). -/
def civilFromDays (z0 : Nat) : Nat × Nat × Nat :=
  let z := z0 + 719468
  let era := z / 146097
  let doe := z % 146097
  let yoe := (doe - doe / 1460 + doe / 36524 - doe / 146096) / 365
  let y := yoe + era * 400
  let doy := doe - (365 * yoe + yoe / 4 - yoe / 100)
  let mp := (5 * doy + 2) / 153
  let d := doy - (153 * mp + 2) / 5 + 1
  let m := if mp < 10 then mp + 3 else mp - 9
  (if m ≤ 2 then y + 1 else y, m, d)

/-- Renders `v.astimezone(timezone.utc).isoformat()` for a stored UTC instant:
e.g. `isoUTC 0 = "1970-01-01T00:00:00+00:00"`. -/
def isoUTC (t : Nat) : String :=
  let days := t / 86400
  let secs := t % 86400
  let ymd := civilFromDays days
  pad4 ymd.1 ++ "-" ++ pad2 ymd.2.1 ++ "-" ++ pad2 ymd.2.2 ++ "T" ++
    pad2 (secs / 3600) ++ ":" ++ pad2 ((secs % 3600) / 60) ++ ":" ++
    pad2 (secs % 60) ++ "+00:00"

/-- Python `str` applied to a stored value.  In the source it is only ever
applied to a document's `_id`, which the store populates with an
ObjectId, rendered by `str` as its 24-char hex string; the remaining
cases give the evident renderings (lists and dicts never occur as a
primary key in this store and get placeholder renderings). -/
def Value.pyStr : Value → String
  | .vOid s => s
  | .vStr s => s
  | .vInt i => toString i
  | .vBool b => if b then "True" else "False"
  | .vDatetime t => isoUTC t
  | .vStrList _ => "<list>"
  | .vDict _ => "<dict>"
  | .vNull => "None"

/-- The datetime-to-ISO conversion `to_str_id` applies to each value. -/
def renderValue : Value → Value
  | .vDatetime t => .vStr (isoUTC t)
  | v => v

/-- src/main.py lines 14-24: the Output Normalizer.  Copies the document,
renames a present, non-null `_id` to `id` rendered as a string, and
converts every datetime-typed value to its ISO-8601 UTC rendering.
(The Python works on a copy `d = \x7b**doc\x7d`; the embedding is pure, so
the input is never mutated.) -/
def to_str_id (doc : Document) : Document :=
  if doc.isEmpty then doc
  else
    let d :=
      match dictGet doc "_id" with
      | some v => if v = Value.vNull then doc
                  else dictSet (dictErase doc "_id") "id" (Value.vStr v.pyStr)
      | none => doc
    d.map (fun p => (p.1, renderValue p.2))

/-- Models `bson.ObjectId.is_valid` on an HTTP string parameter: a 24-character
hex string. -/
def isHexChar (c : Char) : Bool :=
  c.isDigit || (('a' ≤ c) && (c ≤ 'f')) || (('A' ≤ c) && (c ≤ 'F'))

def isValidObjectId (s : String) : Bool :=
  s.length == 24 && s.toList.all isHexChar

/-- The pydantic pattern on `TenantIn.subdomain`: `[a-z0-9-]+` anchored. -/
def isSubdomainChar (c : Char) : Bool :=
  (('a' ≤ c) && (c ≤ 'z')) || c.isDigit || (c == '-')

def isValidSubdomain (s : String) : Bool :=
  !s.isEmpty && s.toList.all isSubdomainChar

/-- A stored document of the `tenant` collection. -/
structure TenantRec where
  oid : String
  subdomain : String
  name : String
  description : Option String
  logo_url : Option String
  payment_details : List (String × String)
  created_at : Nat
  updated_at : Nat
deriving DecidableEq, Repr

/-- A stored document of the `product` collection. -/
structure ProductRec where
  oid : String
  tenant_id : String
  name : String
  description : Option String
  price : Int
  inventory : Int
  image_urls : List String
  is_active : Bool
  created_at : Nat
  updated_at : Nat
deriving DecidableEq, Repr

/-- A stored document of the `order` collection. -/
structure OrderRec where
  oid : String
  tenant_id : String
  customer_name : String
  customer_email : String
  shipping_address : List (String × String)
  order_total : Int
  status : String
  transaction_id : Option String
  payment_screenshot_url : Option String
  created_at : Nat
  updated_at : Nat
deriving DecidableEq, Repr

/-- Request model `TenantIn` (src/main.py lines 28-33). -/
structure TenantIn where
  subdomain : String
  name : String
  description : Option String
  logo_url : Option String
  payment_details : List (String × String)
deriving DecidableEq, Repr

/-- Request model `ProductIn` (src/main.py lines 36-43). -/
structure ProductIn where
  tenant_id : String
  name : String
  description : Option String
  price : Int
  inventory : Int
  image_urls : List String
  is_active : Bool
deriving DecidableEq, Repr

/-- Request model `OrderUpdate` (src/main.py lines 57-60). -/
structure OrderUpdate where
  status : Option String
  transaction_id : Option String
  payment_screenshot_url : Option String
deriving DecidableEq, Repr

/-- The document store: the three collections, in natural (insertion)
order, as `db["tenant"]`, `db["product"]`, `db["order"]`. -/
structure DB where
  tenant : List TenantRec
  product : List ProductRec
  order : List OrderRec
deriving DecidableEq, Repr

/-- Model of `fastapi.HTTPException(status_code, detail)`. -/
structure HTTPException where
  status_code : Nat
  detail : String
deriving DecidableEq, Repr

def optStrVal : Option String → Value
  | some s => .vStr s
  | none => .vNull

/-- The raw `tenant` document as the store returns it (`_id` first, then
the fields in insertion order). -/
def tenantDoc (t : TenantRec) : Document :=
  [("_id", .vOid t.oid), ("subdomain", .vStr t.subdomain), ("name", .vStr t.name),
   ("description", optStrVal t.description), ("logo_url", optStrVal t.logo_url),
   ("payment_details", .vDict t.payment_details),
   ("created_at", .vDatetime t.created_at), ("updated_at", .vDatetime t.updated_at)]

/-- The raw `product` document as the store returns it. -/
def productDoc (p : ProductRec) : Document :=
  [("_id", .vOid p.oid), ("tenant_id", .vStr p.tenant_id), ("name", .vStr p.name),
   ("description", optStrVal p.description), ("price", .vInt p.price),
   ("inventory", .vInt p.inventory), ("image_urls", .vStrList p.image_urls),
   ("is_active", .vBool p.is_active),
   ("created_at", .vDatetime p.created_at), ("updated_at", .vDatetime p.updated_at)]

/-- The raw `order` document as the store returns it. -/
def orderDoc (o : OrderRec) : Document :=
  [("_id", .vOid o.oid), ("tenant_id", .vStr o.tenant_id),
   ("customer_name", .vStr o.customer_name), ("customer_email", .vStr o.customer_email),
   ("shipping_address", .vDict o.shipping_address), ("order_total", .vInt o.order_total),
   ("status", .vStr o.status), ("transaction_id", optStrVal o.transaction_id),
   ("payment_screenshot_url", optStrVal o.payment_screenshot_url),
   ("created_at", .vDatetime o.created_at), ("updated_at", .vDatetime o.updated_at)]

/-- The Identity Resolver.  The source inlines this two-step lookup at
four call sites with identical text (src/main.py lines 106-109, 122-124,
174-176, 190-192): try the primary-key lookup when the reference is a
syntactically valid ObjectId, fall back to the subdomain lookup. -/
def resolveTenant (db : DB) (ref : String) : Option TenantRec :=
  match (if isValidObjectId ref then db.tenant.find? (fun t => t.oid == ref) else none) with
  | some t => some t
  | none => db.tenant.find? (fun t => t.subdomain == ref)

/-- The Tenant Scope Guard as inlined at src/main.py lines 142-146
(update_product) and 162-165 (delete_product): allow on a literal match
of the stored `tenant_id`, otherwise allow exactly when the subdomain
lookup of the caller's reference returns the owning tenant.  Note the
source performs only the subdomain lookup here, never the primary-key
lookup of the Identity Resolver. -/
def scope_ok (db : DB) (stored ref : String) : Bool :=
  stored == ref ||
    match db.tenant.find? (fun t => t.subdomain == ref) with
    | some t => t.oid == stored
    | none => false

/-- Mongo `update_one`: rewrite the first matching document. -/
def updateFirst {α : Type} (p : α → Bool) (f : α → α) : List α → List α
  | [] => []
  | x :: xs => if p x then f x :: xs else x :: updateFirst p f xs

/-- Mongo `delete_one`: remove the first matching document. -/
def eraseFirst {α : Type} (p : α → Bool) : List α → List α
  | [] => []
  | x :: xs => if p x then xs else x :: eraseFirst p xs

/-- Insertion step for `.sort(key, -1)` (descending). -/
def insertDesc {α : Type} (key : α → Nat) (x : α) : List α → List α
  | [] => [x]
  | y :: ys => if key x ≤ key y then y :: insertDesc key x ys else x :: y :: ys

/-- Mongo `.sort(key, -1)`: the result holds the same documents ordered
by descending key. -/
def sortDesc {α : Type} (key : α → Nat) : List α → List α
  | [] => []
  | x :: xs => insertDesc key x (sortDesc key xs)

/-- The tenant record stored by `create_tenant` (src/main.py lines 86-89):
the request fields plus `created_at` and `updated_at` set to now, under
the store-assigned fresh primary key. -/
def mkTenantRec (newId : String) (tin : TenantIn) (now : Nat) : TenantRec :=
  { oid := newId, subdomain := tin.subdomain, name := tin.name,
    description := tin.description, logo_url := tin.logo_url,
    payment_details := tin.payment_details, created_at := now, updated_at := now }

/-- POST /tenants (src/main.py lines 80-91).  `now` is the clock reading,
`newId` the store-assigned primary key of the insert. -/
def create_tenant (db : DB) (tenant : TenantIn) (now : Nat) (newId : String) :
    Except HTTPException (Option Document × DB) :=
  match db.tenant.find? (fun t => t.subdomain == tenant.subdomain) with
  | some _ => .error ⟨400, "Subdomain already exists"⟩
  | none =>
    let r := mkTenantRec newId tenant now
    let db2 : DB := { db with tenant := db.tenant ++ [r] }
    .ok ((db2.tenant.find? (fun t => t.oid == newId)).map (fun t => to_str_id (tenantDoc t)), db2)

/-- Modelled from the spec: `create_document` lives in `database.py`,
which is imported by src/main.py but absent from the sources.  Per spec
section 4.3 ("sets timestamps") it persists the normalized data under a
store-assigned fresh `_id` with `created_at` and `updated_at` set to
now; this record is that document for the `product` collection, with
`tenant_id` already rewritten to the canonical id by the caller
(src/main.py line 113). -/
def mkProductRec (newId : String) (pin : ProductIn) (canonicalId : String) (now : Nat) : ProductRec :=
  { oid := newId, tenant_id := canonicalId, name := pin.name,
    description := pin.description, price := pin.price, inventory := pin.inventory,
    image_urls := pin.image_urls, is_active := pin.is_active,
    created_at := now, updated_at := now }

/-- POST /products (src/main.py lines 103-116). -/
def create_product (db : DB) (product : ProductIn) (now : Nat) (newId : String) :
    Except HTTPException (Option Document × DB) :=
  match resolveTenant db product.tenant_id with
  | none => .error ⟨400, "Invalid tenant_id"⟩
  | some tenant =>
    let r := mkProductRec newId product tenant.oid now
    let db2 : DB := { db with product := db.product ++ [r] }
    .ok ((db2.product.find? (fun p => p.oid == newId)).map (fun p => to_str_id (productDoc p)), db2)

/-- GET /products (src/main.py lines 119-131). -/
def list_products (db : DB) (tenant_id : String) (only_active : Bool) :
    Except HTTPException (List Document) :=
  match resolveTenant db tenant_id with
  | none => .error ⟨400, "Invalid tenant"⟩
  | some tenant =>
    let docs := db.product.filter (fun p => p.tenant_id == tenant.oid && (!only_active || p.is_active))
    .ok ((sortDesc ProductRec.created_at docs).map (fun p => to_str_id (productDoc p)))

/-- The `$set` of src/main.py lines 147-149: every `ProductIn` field —
including the caller-supplied `tenant_id` verbatim — plus a refreshed
`updated_at`. -/
def setProductFields (x : ProductRec) (pin : ProductIn) (now : Nat) : ProductRec :=
  { x with
      tenant_id := pin.tenant_id,
      name := pin.name,
      description := pin.description,
      price := pin.price,
      inventory := pin.inventory,
      image_urls := pin.image_urls,
      is_active := pin.is_active,
      updated_at := now }

/-- PUT /products/\x7bproduct_id\x7d (src/main.py lines 134-151). -/
def update_product (db : DB) (product_id : String) (product : ProductIn) (now : Nat) :
    Except HTTPException (Option Document × DB) :=
  if isValidObjectId product_id = false then .error ⟨400, "Invalid product id"⟩ else
  match db.product.find? (fun x => x.oid == product_id) with
  | none => .error ⟨404, "Product not found"⟩
  | some existing =>
    if scope_ok db existing.tenant_id product.tenant_id then
      let db2 : DB := { db with
        product := updateFirst (fun x => x.oid == product_id) (fun x => setProductFields x product now) db.product }
      .ok ((db2.product.find? (fun x => x.oid == product_id)).map (fun p => to_str_id (productDoc p)), db2)
    else .error ⟨403, "Tenant mismatch"⟩

/-- DELETE /products/\x7bproduct_id\x7d (src/main.py lines 154-167). -/
def delete_product (db : DB) (product_id : String) (tenant_id : String) :
    Except HTTPException (Document × DB) :=
  if isValidObjectId product_id = false then .error ⟨400, "Invalid product id"⟩ else
  match db.product.find? (fun x => x.oid == product_id) with
  | none => .error ⟨404, "Product not found"⟩
  | some existing =>
    if scope_ok db existing.tenant_id tenant_id then
      .ok ([("deleted", Value.vBool true)],
           { db with product := eraseFirst (fun x => x.oid == product_id) db.product })
    else .error ⟨403, "Tenant mismatch"⟩

/-- GET /orders (src/main.py lines 188-196). -/
def list_orders (db : DB) (tenant_id : String) :
    Except HTTPException (List Document) :=
  match resolveTenant db tenant_id with
  | none => .error ⟨400, "Invalid tenant"⟩
  | some tenant =>
    let docs := db.order.filter (fun o => o.tenant_id == tenant.oid)
    .ok ((sortDesc OrderRec.created_at docs).map (fun o => to_str_id (orderDoc o)))

/-- The `$set` of src/main.py lines 206-210, specialised to the three
`OrderUpdate` fields: a field is applied exactly when it is non-null in
the patch (the dict comprehension drops `None`s), and `updated_at` is
refreshed. -/
def applyOrderUpdate (x : OrderRec) (u : OrderUpdate) (now : Nat) : OrderRec :=
  { x with
    status := match u.status with | some s => s | none => x.status,
    transaction_id := match u.transaction_id with | some s => some s | none => x.transaction_id,
    payment_screenshot_url :=
      match u.payment_screenshot_url with | some s => some s | none => x.payment_screenshot_url,
    updated_at := now }

/-- PATCH /orders/\x7border_id\x7d (src/main.py lines 199-212).  The
`if not update` test of line 207 is the all-fields-null test here, since
the comprehension of line 206 keeps exactly the non-null fields. -/
def update_order (db : DB) (order_id : String) (payload : OrderUpdate) (now : Nat) :
    Except HTTPException (Option Document × DB) :=
  if isValidObjectId order_id = false then .error ⟨400, "Invalid order id"⟩ else
  match db.order.find? (fun x => x.oid == order_id) with
  | none => .error ⟨404, "Order not found"⟩
  | some existing =>
    if payload.status = none ∧ payload.transaction_id = none ∧ payload.payment_screenshot_url = none then
      .ok (some (to_str_id (orderDoc existing)), db)
    else
      let db2 : DB := { db with
        order := updateFirst (fun x => x.oid == order_id) (fun x => applyOrderUpdate x payload now) db.order }
      .ok ((db2.order.find? (fun x => x.oid == order_id)).map (fun o => to_str_id (orderDoc o)), db2)

/-! ### Helper lemmas about the list and dict primitives -/

theorem find_none_of_all {α : Type} (p : α → Bool) (l : List α)
    (h : ∀ x ∈ l, p x = false) : l.find? p = none := by
  induction l with
  | nil => rfl
  | cons x xs ih =>
    have hx := h x (List.mem_cons_self x xs)
    simp only [List.find?, hx]
    exact ih (fun y hy => h y (List.mem_cons_of_mem x hy))

theorem find_append_left_none {α : Type} (p : α → Bool) (l₁ l₂ : List α)
    (h : ∀ x ∈ l₁, p x = false) : (l₁ ++ l₂).find? p = l₂.find? p := by
  induction l₁ with
  | nil => rfl
  | cons x xs ih =>
    have hx := h x (List.mem_cons_self x xs)
    simp only [List.cons_append, List.find?, hx]
    exact ih (fun y hy => h y (List.mem_cons_of_mem x hy))

theorem find_first_eq {α : Type} (key : α → String) (l : List α) (T : α)
    (hmem : T ∈ l) (huniq : ∀ a ∈ l, ∀ b ∈ l, key a = key b → a = b) :
    l.find? (fun x => key x == key T) = some T := by
  induction l with
  | nil => cases hmem
  | cons x xs ih =>
    by_cases hk : key x = key T
    · have hx : x = T := huniq x (List.mem_cons_self x xs) T hmem hk
      simp only [List.find?, hx]
      simp
    · have hb : (key x == key T) = false := by
        exact beq_eq_false_iff_ne.mpr hk
      simp only [List.find?, hb]
      have hT : T ∈ xs := by
        rcases List.mem_cons.mp hmem with h1 | h1
        · exact absurd (by rw [h1]) hk
        · exact h1
      exact ih hT (fun a ha b hb2 => huniq a (List.mem_cons_of_mem x ha) b (List.mem_cons_of_mem x hb2))

theorem find_isSome_of_exists {α : Type} (p : α → Bool) (l : List α)
    (h : ∃ x ∈ l, p x = true) : ∃ y, l.find? p = some y := by
  induction l with
  | nil => rcases h with ⟨x, hx, _⟩; cases hx
  | cons x xs ih =>
    by_cases hp : p x = true
    · exact ⟨x, by simp only [List.find?, hp]⟩
    · rcases h with ⟨z, hz, hpz⟩
      have hzx : z ∈ xs := by
        rcases List.mem_cons.mp hz with h1 | h1
        · exact absurd (h1 ▸ hpz) hp
        · exact h1
      have hb : p x = false := by
        cases hpx : p x
        · rfl
        · exact absurd hpx hp
      rcases ih ⟨z, hzx, hpz⟩ with ⟨y, hy⟩
      exact ⟨y, by simp only [List.find?, hb]; exact hy⟩

theorem updateFirst_find {α : Type} (p : α → Bool) (f : α → α) (l : List α) (o : α)
    (hfound : l.find? p = some o) (hf : p (f o) = true) :
    (updateFirst p f l).find? p = some (f o) := by
  induction l with
  | nil => cases hfound
  | cons x xs ih =>
    cases hpx : p x with
    | true =>
      have hx : x = o := by
        simp only [List.find?, hpx] at hfound
        exact Option.some.inj hfound
      subst hx
      simp only [updateFirst, hpx, if_pos rfl, List.find?, hf]
    | false =>
      have hrest : xs.find? p = some o := by
        simpa only [List.find?, hpx] using hfound
      simp only [updateFirst, hpx, Bool.false_eq_true, if_false, List.find?]
      exact ih hrest

theorem updateFirst_mem_of_not {α : Type} (p : α → Bool) (f : α → α) (l : List α) (x : α)
    (hx : x ∈ l) (hpx : p x = false) : x ∈ updateFirst p f l := by
  induction l with
  | nil => cases hx
  | cons y ys ih =>
    rcases List.mem_cons.mp hx with h1 | h1
    · subst h1
      simp only [updateFirst, hpx, Bool.false_eq_true, if_false]
      exact List.mem_cons_self x (updateFirst p f ys)
    · cases hpy : p y with
      | true =>
        simp only [updateFirst, hpy, if_pos rfl]
        exact List.mem_cons_of_mem (f y) h1
      | false =>
        simp only [updateFirst, hpy, Bool.false_eq_true, if_false]
        exact List.mem_cons_of_mem y (ih h1)

theorem mem_insertDesc {α : Type} (key : α → Nat) (x a : α) (l : List α) :
    a ∈ insertDesc key x l ↔ a = x ∨ a ∈ l := by
  induction l with
  | nil => simp [insertDesc]
  | cons y ys ih =>
    by_cases hk : key x ≤ key y
    · simp only [insertDesc, if_pos hk, List.mem_cons, ih]
      tauto
    · simp only [insertDesc, if_neg hk, List.mem_cons]

theorem mem_sortDesc {α : Type} (key : α → Nat) (a : α) (l : List α) :
    a ∈ sortDesc key l ↔ a ∈ l := by
  induction l with
  | nil => simp [sortDesc]
  | cons x xs ih =>
    simp only [sortDesc, mem_insertDesc, ih, List.mem_cons]

theorem pairwise_insertDesc {α : Type} (key : α → Nat) (x : α) (l : List α)
    (h : List.Pairwise (fun a b => key b ≤ key a) l) :
    List.Pairwise (fun a b => key b ≤ key a) (insertDesc key x l) := by
  induction l with
  | nil => simp [insertDesc]
  | cons y ys ih =>
    rcases List.pairwise_cons.mp h with ⟨hy, hys⟩
    by_cases hk : key x ≤ key y
    · simp only [insertDesc, if_pos hk]
      refine List.pairwise_cons.mpr ⟨?_, ih hys⟩
      intro a ha
      rcases (mem_insertDesc key x a ys).mp ha with h1 | h1
      · subst h1; exact hk
      · exact hy a h1
    · simp only [insertDesc, if_neg hk]
      have hyx : key y ≤ key x := Nat.le_of_lt (Nat.lt_of_not_le hk)
      refine List.pairwise_cons.mpr ⟨?_, h⟩
      intro a ha
      rcases List.mem_cons.mp ha with h1 | h1
      · subst h1; exact hyx
      · exact Nat.le_trans (hy a h1) hyx

theorem pairwise_sortDesc {α : Type} (key : α → Nat) (l : List α) :
    List.Pairwise (fun a b => key b ≤ key a) (sortDesc key l) := by
  induction l with
  | nil => exact List.Pairwise.nil
  | cons x xs ih => exact pairwise_insertDesc key x (sortDesc key xs) ih

theorem dictGet_map_render (d : Document) (k : String) :
    dictGet (d.map (fun p => (p.1, renderValue p.2))) k = (dictGet d k).map renderValue := by
  induction d with
  | nil => rfl
  | cons p ps ih =>
    cases hk : (p.1 == k) with
    | true => simp [dictGet, List.find?, hk]
    | false =>
      simp only [dictGet, List.map, List.find?, hk] at ih ⊢
      exact ih

theorem dictGet_erase_self (d : Document) (k : String) : dictGet (dictErase d k) k = none := by
  induction d with
  | nil => rfl
  | cons p ps ih =>
    cases hk : (p.1 == k) with
    | true =>
      simp only [dictErase, List.filter, bne, hk, Bool.not_true]
      exact ih
    | false =>
      simp only [dictErase, List.filter, bne, hk, Bool.not_false]
      simp only [dictGet, List.find?, hk] at ih ⊢
      exact ih

theorem dictGet_erase_ne (d : Document) (k k0 : String) (h : k ≠ k0) :
    dictGet (dictErase d k0) k = dictGet d k := by
  induction d with
  | nil => rfl
  | cons p ps ih =>
    cases hk0 : (p.1 == k0) with
    | true =>
      have hpk : (p.1 == k) = false := by
        have : p.1 = k0 := eq_of_beq hk0
        exact beq_eq_false_iff_ne.mpr (this ▸ (Ne.symm h))
      simp only [dictErase, List.filter, bne, hk0, Bool.not_true]
      simp only [dictGet, List.find?, hpk] at ih ⊢
      exact ih
    | false =>
      simp only [dictErase, List.filter, bne, hk0, Bool.not_false]
      cases hpk : (p.1 == k) with
      | true => simp [dictGet, List.find?, hpk]
      | false =>
        simp only [dictGet, List.find?, hpk] at ih ⊢
        exact ih

theorem dictGet_append_single_ne (d : Document) (k k1 : String) (v : Value) (h : k ≠ k1) :
    dictGet (d ++ [(k1, v)]) k = dictGet d k := by
  induction d with
  | nil =>
    simp only [List.nil_append, dictGet, List.find?]
    have : (k1 == k) = false := beq_eq_false_iff_ne.mpr (Ne.symm h)
    simp [this]
  | cons p ps ih =>
    cases hpk : (p.1 == k) with
    | true => simp [dictGet, List.find?, hpk]
    | false =>
      simp only [List.cons_append, dictGet, List.find?, hpk] at ih ⊢
      exact ih

theorem dictGet_append_single_self (d : Document) (k : String) (v : Value)
    (h : dictGet d k = none) : dictGet (d ++ [(k, v)]) k = some v := by
  induction d with
  | nil => simp [dictGet, List.find?]
  | cons p ps ih =>
    cases hpk : (p.1 == k) with
    | true =>
      exfalso
      simp [dictGet, List.find?, hpk] at h
    | false =>
      simp only [dictGet, List.find?, hpk] at h
      simp only [dictGet, List.cons_append, List.find?, hpk]
      exact ih h

theorem any_key_false_of_get_none (d : Document) (k : String) (h : dictGet d k = none) :
    d.any (fun p => p.1 == k) = false := by
  induction d with
  | nil => rfl
  | cons p ps ih =>
    cases hpk : (p.1 == k) with
    | true =>
      exfalso
      simp [dictGet, List.find?, hpk] at h
    | false =>
      simp only [dictGet, List.find?, hpk] at h
      simp only [List.any, hpk, Bool.false_or]
      exact ih h

/-! ### Example stores used by concrete witnesses and counterexamples -/

/-- A tenant for the concrete scenarios. -/
def exT : TenantRec :=
  { oid := "aaaaaaaaaaaaaaaaaaaaaaaa", subdomain := "acme", name := "Acme",
    description := none, logo_url := none, payment_details := [], created_at := 5, updated_at := 5 }

/-- An active product owned by `exT`. -/
def exP1 : ProductRec :=
  { oid := "cccccccccccccccccccccccc", tenant_id := "aaaaaaaaaaaaaaaaaaaaaaaa", name := "Widget",
    description := none, price := 9, inventory := 5, image_urls := [], is_active := true,
    created_at := 20, updated_at := 20 }

/-- An inactive product owned by `exT`, created later than `exP1`. -/
def exP2 : ProductRec :=
  { oid := "dddddddddddddddddddddddd", tenant_id := "aaaaaaaaaaaaaaaaaaaaaaaa", name := "Gadget",
    description := none, price := 3, inventory := 2, image_urls := [], is_active := false,
    created_at := 30, updated_at := 30 }

/-- An order owned by `exT`. -/
def exO1 : OrderRec :=
  { oid := "ffffffffffffffffffffffff", tenant_id := "aaaaaaaaaaaaaaaaaaaaaaaa",
    customer_name := "Ann", customer_email := "ann@example.com", shipping_address := [],
    order_total := 9, status := "pending_payment", transaction_id := none,
    payment_screenshot_url := none, created_at := 40, updated_at := 40 }

def exDB : DB := { tenant := [exT], product := [exP1, exP2], order := [exO1] }

/-- Shadowing scenario: `shA`'s store-assigned id is a string that `shB`
later picked as its (pattern-legal) subdomain. -/
def shA : TenantRec :=
  { oid := "aaaaaaaaaaaaaaaaaaaaaaaa", subdomain := "alpha", name := "Alpha",
    description := none, logo_url := none, payment_details := [], created_at := 1, updated_at := 1 }

def shB : TenantRec :=
  { oid := "bbbbbbbbbbbbbbbbbbbbbbbb", subdomain := "aaaaaaaaaaaaaaaaaaaaaaaa", name := "Beta",
    description := none, logo_url := none, payment_details := [], created_at := 2, updated_at := 2 }

/-- A product owned by `shB`. -/
def shP : ProductRec :=
  { oid := "cccccccccccccccccccccccc", tenant_id := "bbbbbbbbbbbbbbbbbbbbbbbb", name := "W",
    description := none, price := 9, inventory := 5, image_urls := [], is_active := true,
    created_at := 3, updated_at := 3 }

def shDB : DB := { tenant := [shA, shB], product := [shP], order := [] }

/-! ### Claim theorems -/

/-- C9: the Output Normalizer `to_str_id` renames the store's primary-key
field `_id` (when present and non-null) to `id` rendered as a string,
converts every datetime-typed field to its ISO-8601 UTC rendering, and
passes every other field through with its value unchanged.  The
embedding is pure, so the input document is never mutated (the Python
achieves the same by copying the dict before editing). -/
theorem C9_output_normalizer (doc : Document) (v : Value)
    (hid : dictGet doc "_id" = some v) (hv : v ≠ Value.vNull)
    (hnoid : dictGet doc "id" = none) :
    dictGet (to_str_id doc) "id" = some (Value.vStr v.pyStr) ∧
    dictGet (to_str_id doc) "_id" = none ∧
    (∀ k, k ≠ "_id" → k ≠ "id" →
      dictGet (to_str_id doc) k = (dictGet doc k).map renderValue) := by
  have hne : doc.isEmpty = false := by
    cases doc with
    | nil => simp [dictGet, List.find?] at hid
    | cons p ps => rfl
  have herase_noid : dictGet (dictErase doc "_id") "id" = none := by
    rw [dictGet_erase_ne doc "id" "_id" (by decide)]
    exact hnoid
  have hany : (dictErase doc "_id").any (fun p => p.1 == "id") = false :=
    any_key_false_of_get_none _ _ herase_noid
  have hres : to_str_id doc =
      (dictErase doc "_id" ++ [("id", Value.vStr v.pyStr)]).map
        (fun p => (p.1, renderValue p.2)) := by
    unfold to_str_id
    rw [hid]
    simp only [hne, Bool.false_eq_true, if_false, if_neg hv, dictSet, hany]
  refine ⟨?_, ?_, ?_⟩
  · rw [hres, dictGet_map_render,
      dictGet_append_single_self _ _ _ herase_noid]
    rfl
  · rw [hres, dictGet_map_render,
      dictGet_append_single_ne _ _ _ _ (by decide), dictGet_erase_self]
    rfl
  · intro k hk1 hk2
    rw [hres, dictGet_map_render,
      dictGet_append_single_ne _ _ _ _ hk2, dictGet_erase_ne _ _ _ hk1]

/-- Witness for C9 at a concrete stored record: the id is renamed and
stringified, `_id` is gone, and a datetime field is ISO-rendered while
passing through under its own key. -/
theorem C9_output_normalizer_witness :
    dictGet (to_str_id [("_id", Value.vOid "abcabcabcabcabcabcabcabc"),
        ("name", Value.vStr "x"), ("created_at", Value.vDatetime 0)]) "id" =
      some (Value.vStr (Value.pyStr (Value.vOid "abcabcabcabcabcabcabcabc"))) ∧
    dictGet (to_str_id [("_id", Value.vOid "abcabcabcabcabcabcabcabc"),
        ("name", Value.vStr "x"), ("created_at", Value.vDatetime 0)]) "_id" = none ∧
    dictGet (to_str_id [("_id", Value.vOid "abcabcabcabcabcabcabcabc"),
        ("name", Value.vStr "x"), ("created_at", Value.vDatetime 0)]) "created_at" =
      (dictGet [("_id", Value.vOid "abcabcabcabcabcabcabcabc"),
        ("name", Value.vStr "x"), ("created_at", Value.vDatetime 0)] "created_at").map renderValue := by
  have h := C9_output_normalizer
    [("_id", Value.vOid "abcabcabcabcabcabcabcabc"),
     ("name", Value.vStr "x"), ("created_at", Value.vDatetime 0)]
    (Value.vOid "abcabcabcabcabcabcabcabc") (by rfl) (by decide) (by rfl)
  exact ⟨h.1, h.2.1, h.2.2 "created_at" (by decide) (by decide)⟩

/-- C4: PATCH /orders applies no tenant scope guard: it can fail only
with 400 (malformed id) or 404 (no such order) and succeeds on every
existing order regardless of tenant; no 403 path exists. -/
theorem C4_order_update_no_scope_guard (db : DB) (order_id : String)
    (payload : OrderUpdate) (now : Nat) :
    (∀ e, update_order db order_id payload now = .error e →
        e.status_code = 400 ∨ e.status_code = 404) ∧
    (isValidObjectId order_id = true →
      ∀ o, db.order.find? (fun x => x.oid == order_id) = some o →
        ∃ r, update_order db order_id payload now = .ok r) := by
  constructor
  · intro e he
    unfold update_order at he
    split at he
    · injection he with h
      subst h
      left; rfl
    · split at he
      · injection he with h
        subst h
        right; rfl
      · split at he
        · simp at he
        · simp at he
  · intro hval o hfound
    unfold update_order
    rw [hfound]
    simp only [hval, Bool.true_eq_false, if_false]
    split
    · exact ⟨_, rfl⟩
    · exact ⟨_, rfl⟩

/-- Witness for C4: patching the example order with a foreign caller in
mind still succeeds (there is no tenant in the request at all). -/
theorem C4_order_update_no_scope_guard_witness :
    ∃ r, update_order exDB "ffffffffffffffffffffffff"
        { status := some "shipped", transaction_id := none, payment_screenshot_url := none }
        50 = .ok r :=
  (C4_order_update_no_scope_guard exDB "ffffffffffffffffffffffff"
      { status := some "shipped", transaction_id := none, payment_screenshot_url := none }
      50).2 (by decide) exO1 (by decide)

/-- C5: Order.update partial-patch frame property.  The empty patch is a
no-op returning the pre-update record (its `updated_at` included) with
the store untouched; a status-only patch rewrites exactly `status` and
`updated_at` on the matched record (the record-update form of the
returned and stored record shows every other field unchanged), and every
other stored order is untouched. -/
theorem C5_order_patch_frame (db : DB) (order_id : String) (s : String) (now : Nat)
    (o : OrderRec)
    (hvalid : isValidObjectId order_id = true)
    (hfound : db.order.find? (fun x => x.oid == order_id) = some o) :
    update_order db order_id
        { status := none, transaction_id := none, payment_screenshot_url := none } now
      = .ok (some (to_str_id (orderDoc o)), db) ∧
    (∃ db2, update_order db order_id
        { status := some s, transaction_id := none, payment_screenshot_url := none } now
        = .ok (some (to_str_id (orderDoc { o with status := s, updated_at := now })), db2) ∧
      db2.order.find? (fun x => x.oid == order_id) =
        some { o with status := s, updated_at := now } ∧
      (∀ q, q ∈ db.order → (q.oid == order_id) = false → q ∈ db2.order)) := by
  have hp := List.find?_some hfound
  constructor
  · simp [update_order, hvalid, hfound]
  · have hupd := updateFirst_find (fun x => x.oid == order_id)
      (fun x => applyOrderUpdate x
        { status := some s, transaction_id := none, payment_screenshot_url := none } now)
      db.order o hfound hp
    let db2 : DB := { db with
      order := updateFirst (fun x => x.oid == order_id)
        (fun x => applyOrderUpdate x
          { status := some s, transaction_id := none, payment_screenshot_url := none } now)
        db.order }
    refine ⟨db2, ?_, ?_, ?_⟩
    · simp only [update_order, hvalid, Bool.true_eq_false, if_false, hfound]
      rw [if_neg (by simp)]
      rw [hupd]
      rfl
    · exact hupd
    · intro q hq hqp
      exact updateFirst_mem_of_not _ _ _ _ hq hqp

/-- Witness for C5 on the example store. -/
theorem C5_order_patch_frame_witness :
    update_order exDB "ffffffffffffffffffffffff"
        { status := none, transaction_id := none, payment_screenshot_url := none } 50
      = .ok (some (to_str_id (orderDoc exO1)), exDB) ∧
    (∃ db2, update_order exDB "ffffffffffffffffffffffff"
        { status := some "shipped", transaction_id := none, payment_screenshot_url := none } 50
        = .ok (some (to_str_id (orderDoc { exO1 with status := "shipped", updated_at := 50 })), db2)) := by
  have h := C5_order_patch_frame exDB "ffffffffffffffffffffffff" "shipped" 50 exO1
    (by decide) (by decide)
  exact ⟨h.1, h.2.imp (fun db2 hh => hh.1)⟩

/-- C10 (implicit): null-valued patch fields are discarded before the
order update is applied — an all-null patch behaves exactly like the
empty patch (pre-record returned, no write, no `updated_at` bump), a
non-empty patch stores `applyOrderUpdate`, and under `applyOrderUpdate`
an optional field can only become null if both the patch field was null
and the stored field already was (so a value can never be reset to
null). -/
theorem C10_null_patch_fields_discarded (db : DB) (order_id : String) (u : OrderUpdate)
    (now : Nat) (o : OrderRec)
    (hvalid : isValidObjectId order_id = true)
    (hfound : db.order.find? (fun x => x.oid == order_id) = some o) :
    (u.status = none → u.transaction_id = none → u.payment_screenshot_url = none →
      update_order db order_id u now = .ok (some (to_str_id (orderDoc o)), db)) ∧
    ((u.status ≠ none ∨ u.transaction_id ≠ none ∨ u.payment_screenshot_url ≠ none) →
      ∃ db2, update_order db order_id u now =
        .ok (some (to_str_id (orderDoc (applyOrderUpdate o u now))), db2)) ∧
    (∀ x : OrderRec,
      ((applyOrderUpdate x u now).transaction_id = none ↔
        u.transaction_id = none ∧ x.transaction_id = none) ∧
      ((applyOrderUpdate x u now).payment_screenshot_url = none ↔
        u.payment_screenshot_url = none ∧ x.payment_screenshot_url = none)) := by
  have hp := List.find?_some hfound
  refine ⟨?_, ?_, ?_⟩
  · intro h1 h2 h3
    simp [update_order, hvalid, hfound, h1, h2, h3]
  · intro hne
    have hcond : ¬(u.status = none ∧ u.transaction_id = none ∧ u.payment_screenshot_url = none) := by
      rcases hne with h | h | h <;> intro hc <;> exact h (by tauto)
    have hupd := updateFirst_find (fun x => x.oid == order_id)
      (fun x => applyOrderUpdate x u now) db.order o hfound hp
    let db2 : DB := { db with
      order := updateFirst (fun x => x.oid == order_id)
        (fun x => applyOrderUpdate x u now) db.order }
    refine ⟨db2, ?_⟩
    simp only [update_order, hvalid, Bool.true_eq_false, if_false, hfound]
    rw [if_neg hcond, hupd]
    rfl
  · intro x
    constructor
    · cases hu : u.transaction_id <;> simp [applyOrderUpdate, hu]
    · cases hu : u.payment_screenshot_url <;> simp [applyOrderUpdate, hu]

/-- Witness for C10 on the example store: an all-null patch is the
identity, and a transaction-id-only patch goes through
`applyOrderUpdate`, which cannot null out the other optional field. -/
theorem C10_null_patch_fields_discarded_witness :
    update_order exDB "ffffffffffffffffffffffff"
        { status := none, transaction_id := none, payment_screenshot_url := none } 50
      = .ok (some (to_str_id (orderDoc exO1)), exDB) ∧
    (∃ db2, update_order exDB "ffffffffffffffffffffffff"
        { status := none, transaction_id := some "tx9", payment_screenshot_url := none } 50 =
      .ok (some (to_str_id (orderDoc (applyOrderUpdate exO1
        { status := none, transaction_id := some "tx9", payment_screenshot_url := none } 50))), db2)) := by
  have h1 := C10_null_patch_fields_discarded exDB "ffffffffffffffffffffffff"
    { status := none, transaction_id := none, payment_screenshot_url := none } 50 exO1
    (by decide) (by decide)
  have h2 := C10_null_patch_fields_discarded exDB "ffffffffffffffffffffffff"
    { status := none, transaction_id := some "tx9", payment_screenshot_url := none } 50 exO1
    (by decide) (by decide)
  exact ⟨h1.1 rfl rfl rfl, h2.2.1 (by simp)⟩

/-- C2 (amended): Identity Resolver laws.  With store-shaped, distinct
primary keys and distinct subdomains, resolving a tenant's canonical id
always returns that tenant; resolving its subdomain returns that tenant
provided no tenant's canonical id equals the subdomain (otherwise the
id-first lookup shadows the subdomain lookup — see the counterexample).
The lookup order (primary key first when the reference is id-shaped,
then subdomain) is the definition of `resolveTenant`, mirrored from the
source. -/
theorem C2_resolver_laws (db : DB) (T : TenantRec)
    (hmem : T ∈ db.tenant)
    (hids : ∀ a ∈ db.tenant, ∀ b ∈ db.tenant, a.oid = b.oid → a = b)
    (hsubs : ∀ a ∈ db.tenant, ∀ b ∈ db.tenant, a.subdomain = b.subdomain → a = b)
    (hvalidid : isValidObjectId T.oid = true)
    (hnoshadow : ∀ u ∈ db.tenant, u.oid ≠ T.subdomain) :
    resolveTenant db T.oid = some T ∧ resolveTenant db T.subdomain = some T := by
  have hfindid := find_first_eq TenantRec.oid db.tenant T hmem hids
  have hfindsub := find_first_eq TenantRec.subdomain db.tenant T hmem hsubs
  have hnone : db.tenant.find? (fun t => t.oid == T.subdomain) = none :=
    find_none_of_all _ _ (fun x hx => beq_eq_false_iff_ne.mpr (hnoshadow x hx))
  constructor
  · simp [resolveTenant, hvalidid, hfindid]
  · cases hb : isValidObjectId T.subdomain with
    | true => simp [resolveTenant, hb, hnone, hfindsub]
    | false => simp [resolveTenant, hb, hfindsub]

/-- Witness for C2 on the example store. -/
theorem C2_resolver_laws_witness :
    resolveTenant exDB exT.oid = some exT ∧ resolveTenant exDB exT.subdomain = some exT :=
  C2_resolver_laws exDB exT (by decide) (by decide) (by decide) (by decide) (by decide)

/-- Counterexample to C2 as stated: in the shadowing store, `shB` is a
tenant whose (pattern-legal) subdomain equals `shA`'s canonical id, and
resolving `shB`'s subdomain returns `shA`, not `shB` — so
`resolve(T.subdomain) == T` fails for `T = shB`. -/
theorem C2_resolve_subdomain_counterexample :
    shB ∈ shDB.tenant ∧ isValidSubdomain shB.subdomain = true ∧
      resolveTenant shDB shB.subdomain = some shA ∧
      resolveTenant shDB shB.subdomain ≠ some shB := by
  decide

/-- C3 (amended): Tenant Scope Guard characterization on product
mutations (the only guarded mutations).  Given an existing product,
update and delete succeed exactly when `scope_ok` holds — the reference
literally equals the stored `tenant_id`, or the subdomain lookup of the
reference returns the tenant whose canonical id equals the stored
`tenant_id` — and in every other case (including a reference matching no
subdomain at all) they fail with the uniform 403 "Tenant mismatch".
The guard performs only the subdomain lookup, not the full Identity
Resolver — see the counterexample. -/
theorem C3_scope_guard_characterization (db : DB) (pid : String) (pin : ProductIn)
    (tref : String) (now : Nat) (P : ProductRec)
    (hvalid : isValidObjectId pid = true)
    (hfound : db.product.find? (fun x => x.oid == pid) = some P) :
    ((∃ e, update_product db pid pin now = .error e ∧ e = ⟨403, "Tenant mismatch"⟩) ↔
        scope_ok db P.tenant_id pin.tenant_id = false) ∧
    (scope_ok db P.tenant_id pin.tenant_id = true →
      ∃ r, update_product db pid pin now = .ok r) ∧
    ((∃ e, delete_product db pid tref = .error e ∧ e = ⟨403, "Tenant mismatch"⟩) ↔
        scope_ok db P.tenant_id tref = false) ∧
    (scope_ok db P.tenant_id tref = true →
      ∃ r, delete_product db pid tref = .ok r) := by
  refine ⟨?_, ?_, ?_, ?_⟩
  · cases hs : scope_ok db P.tenant_id pin.tenant_id with
    | true => simp [update_product, hvalid, hfound, hs]
    | false =>
      simp only [update_product, hvalid, Bool.true_eq_false, if_false, hfound, hs,
        Bool.false_eq_true]
      constructor
      · intro _; trivial
      · intro _; exact ⟨⟨403, "Tenant mismatch"⟩, rfl, rfl⟩
  · intro hs
    simp [update_product, hvalid, hfound, hs]
  · cases hs : scope_ok db P.tenant_id tref with
    | true => simp [delete_product, hvalid, hfound, hs]
    | false =>
      simp only [delete_product, hvalid, Bool.true_eq_false, if_false, hfound, hs,
        Bool.false_eq_true]
      constructor
      · intro _; trivial
      · intro _; exact ⟨⟨403, "Tenant mismatch"⟩, rfl, rfl⟩
  · intro hs
    simp [delete_product, hvalid, hfound, hs]

/-- Witness for C3 on the example store: the owner may update by
subdomain reference and delete by literal canonical id. -/
theorem C3_scope_guard_characterization_witness :
    (∃ r, update_product exDB exP1.oid
        { tenant_id := "acme", name := "Widget", description := none, price := 9,
          inventory := 5, image_urls := [], is_active := true } 50 = .ok r) ∧
    (∃ r, delete_product exDB exP1.oid "aaaaaaaaaaaaaaaaaaaaaaaa" = .ok r) := by
  have h := C3_scope_guard_characterization exDB exP1.oid
    { tenant_id := "acme", name := "Widget", description := none, price := 9,
      inventory := 5, image_urls := [], is_active := true }
    "aaaaaaaaaaaaaaaaaaaaaaaa" 50 exP1 (by decide) (by decide)
  exact ⟨h.2.1 (by decide), h.2.2.2 (by decide)⟩

/-- Counterexample to C3 as stated: in the shadowing store the caller's
reference is not the stored `tenant_id` and the Identity Resolver maps
it to `shA` (id-first), a tenant other than the owner `shB`; the claim
then demands 403, yet `update_product` succeeds, because the inline
guard only ever performs the subdomain lookup, which here returns the
owner. -/
theorem C3_guard_without_resolver_counterexample :
    ("aaaaaaaaaaaaaaaaaaaaaaaa" ≠ shP.tenant_id) ∧
    (resolveTenant shDB "aaaaaaaaaaaaaaaaaaaaaaaa").map TenantRec.oid = some shA.oid ∧
    shA.oid ≠ shP.tenant_id ∧
    (update_product shDB shP.oid
        { tenant_id := "aaaaaaaaaaaaaaaaaaaaaaaa", name := "W", description := none,
          price := 9, inventory := 5, image_urls := [], is_active := true } 99
      matches .ok _) := by
  decide

/-- C6: Product.create postconditions.  An unresolvable tenant reference
fails with 400; a reference resolving to tenant `t` (by id or by
subdomain — that is exactly what `resolveTenant` decides) persists the
product with `tenant_id` rewritten to `t`'s canonical id, both
timestamps set to now, and returns the normalized record.  (The
timestamping is the spec-modelled `create_document` behaviour, see
`mkProductRec`.) -/
theorem C6_product_create_postconditions (db : DB) (pin : ProductIn) (now : Nat)
    (newId : String) :
    (resolveTenant db pin.tenant_id = none →
      create_product db pin now newId = .error ⟨400, "Invalid tenant_id"⟩) ∧
    (∀ t, resolveTenant db pin.tenant_id = some t →
      (∀ q ∈ db.product, (q.oid == newId) = false) →
      create_product db pin now newId =
        .ok (some (to_str_id (productDoc (mkProductRec newId pin t.oid now))),
          { db with product := db.product ++ [mkProductRec newId pin t.oid now] }) ∧
      (mkProductRec newId pin t.oid now).tenant_id = t.oid ∧
      (mkProductRec newId pin t.oid now).created_at = now ∧
      (mkProductRec newId pin t.oid now).updated_at = now) := by
  constructor
  · intro h
    simp [create_product, h]
  · intro t ht hfresh
    have hfind : (db.product ++ [mkProductRec newId pin t.oid now]).find?
        (fun p => p.oid == newId) = some (mkProductRec newId pin t.oid now) := by
      rw [find_append_left_none _ _ _ hfresh]
      simp [List.find?, mkProductRec]
    refine ⟨?_, rfl, rfl, rfl⟩
    simp [create_product, ht, hfind]

/-- Witness for C6: creating by subdomain reference persists the
canonical id. -/
theorem C6_product_create_postconditions_witness :
    create_product exDB
        { tenant_id := "acme", name := "Doohickey", description := none, price := 4,
          inventory := 1, image_urls := [], is_active := true } 60
        "0123456789abcdef01234567" =
      .ok (some (to_str_id (productDoc (mkProductRec "0123456789abcdef01234567"
          { tenant_id := "acme", name := "Doohickey", description := none, price := 4,
            inventory := 1, image_urls := [], is_active := true } exT.oid 60))),
        { exDB with product := exDB.product ++ [mkProductRec "0123456789abcdef01234567"
          { tenant_id := "acme", name := "Doohickey", description := none, price := 4,
            inventory := 1, image_urls := [], is_active := true } exT.oid 60] }) ∧
    (mkProductRec "0123456789abcdef01234567"
        { tenant_id := "acme", name := "Doohickey", description := none, price := 4,
          inventory := 1, image_urls := [], is_active := true } exT.oid 60).tenant_id = exT.oid := by
  have h := (C6_product_create_postconditions exDB
    { tenant_id := "acme", name := "Doohickey", description := none, price := 4,
      inventory := 1, image_urls := [], is_active := true } 60
    "0123456789abcdef01234567").2 exT (by decide) (by decide)
  exact ⟨h.1, h.2.1⟩

/-- C7: listing correctness.  An unresolvable reference yields 400 for
both listings; a reference resolving to tenant `t` yields exactly the
records whose stored `tenant_id` is `t`'s canonical id (products
additionally restricted to `is_active` when `only_active` is set),
ordered by `created_at` descending. -/
theorem C7_listing_correctness (db : DB) (ref : String) :
    (resolveTenant db ref = none →
      (∀ b, list_products db ref b = .error ⟨400, "Invalid tenant"⟩) ∧
      list_orders db ref = .error ⟨400, "Invalid tenant"⟩) ∧
    (∀ t, resolveTenant db ref = some t →
      (∀ b, ∃ ps, list_products db ref b = .ok (ps.map (fun p => to_str_id (productDoc p))) ∧
        (∀ p, p ∈ ps ↔ p ∈ db.product ∧ p.tenant_id = t.oid ∧ (b = true → p.is_active = true)) ∧
        List.Pairwise (fun a c => c.created_at ≤ a.created_at) ps) ∧
      (∃ os, list_orders db ref = .ok (os.map (fun o => to_str_id (orderDoc o))) ∧
        (∀ o, o ∈ os ↔ o ∈ db.order ∧ o.tenant_id = t.oid) ∧
        List.Pairwise (fun a c => c.created_at ≤ a.created_at) os)) := by
  constructor
  · intro h
    refine ⟨fun b => ?_, ?_⟩
    · simp [list_products, h]
    · simp [list_orders, h]
  · intro t ht
    constructor
    · intro b
      refine ⟨sortDesc ProductRec.created_at
        (db.product.filter (fun p => p.tenant_id == t.oid && (!b || p.is_active))), ?_, ?_, ?_⟩
      · simp [list_products, ht]
      · intro p
        rw [mem_sortDesc, List.mem_filter]
        cases b <;> simp [Bool.and_eq_true]
      · exact pairwise_sortDesc ProductRec.created_at _
    · refine ⟨sortDesc OrderRec.created_at
        (db.order.filter (fun o => o.tenant_id == t.oid)), ?_, ?_, ?_⟩
      · simp [list_orders, ht]
      · intro o
        rw [mem_sortDesc, List.mem_filter]
        simp
      · exact pairwise_sortDesc OrderRec.created_at _

/-- Witness for C7 on the example store (which holds an inactive product
and records in ascending creation order, so both the filter and the
descending sort are exercised). -/
theorem C7_listing_correctness_witness :
    (∃ ps, list_products exDB "acme" true = .ok (ps.map (fun p => to_str_id (productDoc p))) ∧
      (∀ p, p ∈ ps ↔ p ∈ exDB.product ∧ p.tenant_id = exT.oid ∧ (true = true → p.is_active = true)) ∧
      List.Pairwise (fun a c => c.created_at ≤ a.created_at) ps) ∧
    (∃ os, list_orders exDB "acme" = .ok (os.map (fun o => to_str_id (orderDoc o))) ∧
      (∀ o, o ∈ os ↔ o ∈ exDB.order ∧ o.tenant_id = exT.oid) ∧
      List.Pairwise (fun a c => c.created_at ≤ a.created_at) os) := by
  have h := (C7_listing_correctness exDB "acme").2 exT (by decide)
  exact ⟨h.1 true, h.2⟩

/-- C8: Tenant.create subdomain uniqueness and timestamps.  A subdomain
collision with any existing tenant yields the conflict error whatever
the other fields are (the hypothesis constrains only the subdomain);
otherwise the stored record carries `created_at` and `updated_at` both
set to now and the normalized record is returned.  The spec's `Conflict`
is surfaced as HTTP 400 "Subdomain already exists" (spec section 6). -/
theorem C8_tenant_create_unique_subdomain (db : DB) (tin : TenantIn) (now : Nat)
    (newId : String) :
    ((∃ t ∈ db.tenant, t.subdomain = tin.subdomain) →
      create_tenant db tin now newId = .error ⟨400, "Subdomain already exists"⟩) ∧
    ((∀ t ∈ db.tenant, t.subdomain ≠ tin.subdomain) →
      (∀ t ∈ db.tenant, (t.oid == newId) = false) →
      create_tenant db tin now newId =
        .ok (some (to_str_id (tenantDoc (mkTenantRec newId tin now))),
          { db with tenant := db.tenant ++ [mkTenantRec newId tin now] }) ∧
      (mkTenantRec newId tin now).created_at = now ∧
      (mkTenantRec newId tin now).updated_at = now) := by
  constructor
  · intro h
    have hex : ∃ x ∈ db.tenant, (fun t => t.subdomain == tin.subdomain) x = true := by
      rcases h with ⟨t, ht, he⟩
      exact ⟨t, ht, beq_iff_eq.mpr he⟩
    rcases find_isSome_of_exists _ _ hex with ⟨y, hy⟩
    simp [create_tenant, hy]
  · intro hno hfresh
    have hnone : db.tenant.find? (fun t => t.subdomain == tin.subdomain) = none :=
      find_none_of_all _ _ (fun x hx => beq_eq_false_iff_ne.mpr (hno x hx))
    have hfind : (db.tenant ++ [mkTenantRec newId tin now]).find?
        (fun t => t.oid == newId) = some (mkTenantRec newId tin now) := by
      rw [find_append_left_none _ _ _ hfresh]
      simp [List.find?, mkTenantRec]
    refine ⟨?_, rfl, rfl⟩
    simp [create_tenant, hnone, hfind]

/-- Witness for C8: a colliding subdomain with entirely different other
fields conflicts; a fresh subdomain is stored with both timestamps. -/
theorem C8_tenant_create_unique_subdomain_witness :
    create_tenant exDB
        { subdomain := "acme", name := "Other", description := some "d",
          logo_url := some "u", payment_details := [("upi", "x")] } 70
        "aaaaaaaaaaaaaaaaaaaaaabb" = .error ⟨400, "Subdomain already exists"⟩ ∧
    (create_tenant exDB
        { subdomain := "zeta", name := "Zeta", description := none,
          logo_url := none, payment_details := [] } 70
        "aaaaaaaaaaaaaaaaaaaaaabb" =
      .ok (some (to_str_id (tenantDoc (mkTenantRec "aaaaaaaaaaaaaaaaaaaaaabb"
          { subdomain := "zeta", name := "Zeta", description := none,
            logo_url := none, payment_details := [] } 70))),
        { exDB with tenant := exDB.tenant ++ [mkTenantRec "aaaaaaaaaaaaaaaaaaaaaabb"
          { subdomain := "zeta", name := "Zeta", description := none,
            logo_url := none, payment_details := [] } 70] })) := by
  have h1 := (C8_tenant_create_unique_subdomain exDB
    { subdomain := "acme", name := "Other", description := some "d",
      logo_url := some "u", payment_details := [("upi", "x")] } 70
    "aaaaaaaaaaaaaaaaaaaaaabb").1 ⟨exT, by decide, by decide⟩
  have h2 := (C8_tenant_create_unique_subdomain exDB
    { subdomain := "zeta", name := "Zeta", description := none,
      logo_url := none, payment_details := [] } 70
    "aaaaaaaaaaaaaaaaaaaaaabb").2 (by decide) (by decide)
  exact ⟨h1, h2.1⟩

/-- Reads off, from an `update_product` result, the stored `tenant_id` of
the product with the given primary key in the post-state. -/
def storedTenantIdAfter (res : Except HTTPException (Option Document × DB))
    (pid : String) : Option String :=
  match res with
  | .ok (_, db2) => (db2.product.find? (fun x => x.oid == pid)).map ProductRec.tenant_id
  | .error _ => none

/-- C1 is violated by the code: before the call the invariant holds
(`exP1.tenant_id` is the canonical id of its owner `exT`), the caller
supplies the owner's legal subdomain "acme" as the tenant reference, the
scope guard rightly allows the update — and the full-replace then stores
"acme", a raw subdomain that is no tenant's canonical id, as the
product's `tenant_id`, destroying the stored-canonical-id invariant the
spec states. -/
theorem C1_update_product_stores_raw_subdomain :
    exP1.tenant_id = exT.oid ∧
    isValidSubdomain "acme" = true ∧
    storedTenantIdAfter
      (update_product exDB exP1.oid
        { tenant_id := "acme", name := "Widget", description := none, price := 9,
          inventory := 5, image_urls := [], is_active := true } 77) exP1.oid = some "acme" ∧
    (∀ t ∈ exDB.tenant, t.oid ≠ "acme") := by
  refine ⟨rfl, by decide, by decide, by decide⟩
